import Mathlib

/-!
Verification of the BLE transport layer of NiimPrintX
(src/NiimPrintX/nimmy/bluetooth.py), shallowly embedded in Lean.

The embedding models the three components the spec's claims are about:

* device resolution (`find_device`),
* the Linux peripheral-style transport (`BluepyBluetoothPrinter`:
  `connect` with its retry loop, `disconnect`, `write`),
* the cross-platform GATT-client transport (`BLETransport`:
  `disconnect`, `write`).

Python exceptions are modelled by an explicit error type and
`Except`-valued functions; the nondeterministic behaviour of the radio
(whether each platform call succeeds or raises) is passed in as an
explicit parameter.  Each function also reports how many platform-level
calls it performed, so "performs no platform call" is provable.
-/

/-- The kinds of Python exception the embedded code can raise or observe:
`bleException` models `BLEException`, `btleDisconnectError` models
`bluepy.btle.BTLEDisconnectError` (the transient link-drop error),
`connectionError` models the builtin `ConnectionError`, and `otherError`
models any other `Exception` coming out of a platform call. -/
inductive PyError where
  | bleException (msg : String)
  | btleDisconnectError (msg : String)
  | connectionError (msg : String)
  | otherError (msg : String)
deriving Repr, DecidableEq

/-- Source constant: the hardcoded factory MAC address of the P15 model. -/
def P15_MAC_ADDRESS : String := "03:0D:7A:D6:5E:B1"

/-- Source constant: the fixed write characteristic UUID. -/
def CHAR_UUID : String := "0000ff02-0000-1000-8000-00805f9b34fb"

/-- A discovered BLE advertisement, as bleak's `BLEDevice` exposes it to
this code: an optional advertised name and an address string.  In Python
the name may also be the empty string, which is falsy; `Option.some ""`
models that. -/
structure BLEDevice where
  name : Option String
  address : String
deriving Repr, DecidableEq

/-- Python `str.lower()` on the ASCII names and selectors this code
handles (Lean's `Char.toLower` lowercases exactly ASCII letters). -/
def pyLower (s : String) : String := String.mk (s.data.map Char.toLower)

/-- Python `s.startswith (p)`: `p` is a prefix of `s`. -/
def pyStartsWith (s p : String) : Bool := List.isPrefixOf p.data s.data

/-- The matching test of the name-branch of `find_device`
(bluetooth.py line 112): `device.name and
device.name.lower().startswith (device_name_prefix.lower())`.
A missing name and an empty name are both falsy in Python. -/
def matchesName (selector : String) (d : BLEDevice) : Bool :=
  match d.name with
  | none => false
  | some s => s != "" && pyStartsWith (pyLower s) (pyLower selector)

/-- The `for` loop of the `"p15"` branch of `find_device`
(bluetooth.py lines 106-109): first device whose address equals
`P15_MAC_ADDRESS` by Python `==` on strings, else `BLEException`. -/
def findP15Loop : List BLEDevice → Except PyError BLEDevice
  | [] =>
    Except.error (PyError.bleException
      ("Failed to find P15 device at " ++ P15_MAC_ADDRESS))
  | d :: rest =>
    if d.address = P15_MAC_ADDRESS then Except.ok d else findP15Loop rest

/-- The `for` loop of the name branch of `find_device`
(bluetooth.py lines 111-114). -/
def findNameLoop (selector : String) : List BLEDevice → Except PyError BLEDevice
  | [] =>
    Except.error (PyError.bleException ("Failed to find device " ++ selector))
  | d :: rest =>
    if matchesName selector d then Except.ok d else findNameLoop selector rest

/-- `find_device` (bluetooth.py lines 103-114), as a function of the one
discovery pass `devices` (the code's `await BleakScanner.discover()`):
the selector `"p15"` takes the fixed-address branch, every other
selector the name branch. -/
def find_device (selector : String) (devices : List BLEDevice) :
    Except PyError BLEDevice :=
  if selector = "p15" then findP15Loop devices else findNameLoop selector devices

/-- Spec-side predicate, from the spec's words for address selectors:
the record's "address equals the target address exactly
(case-insensitive)". -/
def specAddrMatchCI (target : String) (d : BLEDevice) : Prop :=
  pyLower d.address = pyLower target

/-- Spec-side predicate, from the spec's words for name-prefix
selectors: the record's "name, lower-cased, starts with the lower-cased
prefix" (so the record must carry a name at all). -/
def specNameMatch (selector : String) (d : BLEDevice) : Prop :=
  ∃ s, d.name = some s ∧ pyStartsWith (pyLower s) (pyLower selector) = true

/-- `d` is the first element of `devices` satisfying `p`. -/
def FirstSuch (p : BLEDevice → Prop) (devices : List BLEDevice)
    (d : BLEDevice) : Prop :=
  ∃ l₁ l₂, devices = l₁ ++ d :: l₂ ∧ p d ∧ ∀ x ∈ l₁, ¬ p x

theorem findP15Loop_ok_iff (devices : List BLEDevice) (d : BLEDevice) :
    findP15Loop devices = Except.ok d ↔
      FirstSuch (fun x => x.address = P15_MAC_ADDRESS) devices d := by
  induction devices with
  | nil =>
    simp [findP15Loop, FirstSuch]
  | cons a rest ih =>
    rw [findP15Loop]
    by_cases ha : a.address = P15_MAC_ADDRESS
    · rw [if_pos ha]
      constructor
      · intro h
        rw [Except.ok.injEq] at h
        subst h
        exact ⟨[], rest, rfl, ha, by simp⟩
      · rintro ⟨l₁, l₂, hsplit, hd, hfirst⟩
        cases l₁ with
        | nil =>
          rw [List.nil_append, List.cons.injEq] at hsplit
          rw [hsplit.1]
        | cons b l₁ =>
          rw [List.cons_append, List.cons.injEq] at hsplit
          obtain ⟨hab, -⟩ := hsplit
          subst hab
          exact absurd ha (hfirst a (by simp))
    · rw [if_neg ha, ih]
      constructor
      · rintro ⟨l₁, l₂, hsplit, hd, hfirst⟩
        refine ⟨a :: l₁, l₂, by rw [List.cons_append, hsplit], hd, ?_⟩
        intro x hx
        rcases List.mem_cons.mp hx with hx | hx
        · rw [hx]; exact ha
        · exact hfirst x hx
      · rintro ⟨l₁, l₂, hsplit, hd, hfirst⟩
        cases l₁ with
        | nil =>
          rw [List.nil_append, List.cons.injEq] at hsplit
          obtain ⟨had, -⟩ := hsplit
          subst had
          exact absurd hd ha
        | cons b l₁ =>
          rw [List.cons_append, List.cons.injEq] at hsplit
          exact ⟨l₁, l₂, hsplit.2, hd, fun x hx => hfirst x (by simp [hx])⟩

theorem findNameLoop_ok_iff (selector : String) (devices : List BLEDevice)
    (d : BLEDevice) :
    findNameLoop selector devices = Except.ok d ↔
      FirstSuch (fun x => matchesName selector x = true) devices d := by
  induction devices with
  | nil =>
    simp [findNameLoop, FirstSuch]
  | cons a rest ih =>
    rw [findNameLoop]
    by_cases ha : matchesName selector a = true
    · rw [if_pos ha]
      constructor
      · intro h
        rw [Except.ok.injEq] at h
        subst h
        exact ⟨[], rest, rfl, ha, by simp⟩
      · rintro ⟨l₁, l₂, hsplit, hd, hfirst⟩
        cases l₁ with
        | nil =>
          rw [List.nil_append, List.cons.injEq] at hsplit
          rw [hsplit.1]
        | cons b l₁ =>
          rw [List.cons_append, List.cons.injEq] at hsplit
          obtain ⟨hab, -⟩ := hsplit
          subst hab
          exact absurd ha (hfirst a (by simp))
    · rw [if_neg ha, ih]
      constructor
      · rintro ⟨l₁, l₂, hsplit, hd, hfirst⟩
        refine ⟨a :: l₁, l₂, by rw [List.cons_append, hsplit], hd, ?_⟩
        intro x hx
        rcases List.mem_cons.mp hx with hx | hx
        · rw [hx]; exact ha
        · exact hfirst x hx
      · rintro ⟨l₁, l₂, hsplit, hd, hfirst⟩
        cases l₁ with
        | nil =>
          rw [List.nil_append, List.cons.injEq] at hsplit
          obtain ⟨had, -⟩ := hsplit
          subst had
          exact absurd hd ha
        | cons b l₁ =>
          rw [List.cons_append, List.cons.injEq] at hsplit
          exact ⟨l₁, l₂, hsplit.2, hd, fun x hx => hfirst x (by simp [hx])⟩

theorem data_eq_nil_iff (s : String) : s.data = [] ↔ s = "" := by
  constructor
  · intro h
    apply String.ext
    rw [h]
  · intro h
    rw [h]

theorem pyLower_eq_empty_iff (s : String) : pyLower s = "" ↔ s = "" := by
  rw [← data_eq_nil_iff (pyLower s)]
  show s.data.map Char.toLower = [] ↔ s = ""
  rw [List.map_eq_nil_iff, data_eq_nil_iff]

theorem pyStartsWith_empty_string (p : String) :
    pyStartsWith "" p = true ↔ p = "" := by
  rw [pyStartsWith, List.isPrefixOf_iff_prefix]
  show p.data <+: [] ↔ p = ""
  rw [List.prefix_nil, data_eq_nil_iff]

/-- For a nonempty selector, the loop's Python truthiness test coincides
with the spec's description of a name-prefix match. -/
theorem matchesName_iff_spec (selector : String) (d : BLEDevice)
    (hne : selector ≠ "") :
    matchesName selector d = true ↔ specNameMatch selector d := by
  obtain ⟨nm, addr⟩ := d
  cases nm with
  | none => simp [matchesName, specNameMatch]
  | some s =>
    simp only [matchesName, specNameMatch, Option.some.injEq, Bool.and_eq_true,
      bne_iff_ne, ne_eq]
    constructor
    · rintro ⟨hs, hstart⟩
      exact ⟨s, rfl, hstart⟩
    · rintro ⟨t, ht, hstart⟩
      subst ht
      refine ⟨?_, hstart⟩
      intro hs0
      subst hs0
      have h0 : pyLower "" = "" := rfl
      rw [h0, pyStartsWith_empty_string, pyLower_eq_empty_iff] at hstart
      exact hne hstart

theorem matchesName_requires_name (selector : String) (d : BLEDevice)
    (h : matchesName selector d = true) : ∃ s, d.name = some s ∧ s ≠ "" := by
  obtain ⟨nm, addr⟩ := d
  cases nm with
  | none => simp [matchesName] at h
  | some s =>
    simp only [matchesName, Bool.and_eq_true, bne_iff_ne, ne_eq] at h
    exact ⟨s, rfl, h.1⟩

/-- C1 counterexample: the spec-side case-insensitive predicate accepts a
lower-cased variant of the target address, but `find_device "p15"` rejects
it: the code compares addresses with case-sensitive `==`. -/
theorem C1_counterexample :
    specAddrMatchCI P15_MAC_ADDRESS (BLEDevice.mk none "03:0d:7a:d6:5e:b1") ∧
      find_device "p15" [BLEDevice.mk none "03:0d:7a:d6:5e:b1"] =
        Except.error (PyError.bleException
          "Failed to find P15 device at 03:0D:7A:D6:5E:B1") := by
  constructor
  · rfl
  · rfl

/-- C1 (amended): for the fixed-address selector `"p15"`, `find_device`
returns `Except.ok d` exactly when `d` is the first discovered record
whose address equals the hardcoded target address by exact,
case-sensitive string comparison. -/
theorem C1_address_exact_first_match (devices : List BLEDevice) (d : BLEDevice) :
    find_device "p15" devices = Except.ok d ↔
      FirstSuch (fun x => x.address = P15_MAC_ADDRESS) devices d := by
  rw [find_device, if_pos rfl]
  exact findP15Loop_ok_iff devices d

/-- C7: for every name-prefix selector (any selector other than `"p15"`),
a record selected by `find_device` always carries a nonempty advertised
name; and a record with no name is never selected, even as the only
candidate.  Records with no name stay eligible for the address branch,
which `C1_address_exact_first_match` characterises without any condition
on the name. -/
theorem C7_unnamed_never_selected (selector : String) (devices : List BLEDevice)
    (d : BLEDevice) (hsel : selector ≠ "p15")
    (h : find_device selector devices = Except.ok d) :
    (∃ s, d.name = some s ∧ s ≠ "") ∧
      ∀ a : String, find_device selector [BLEDevice.mk none a] =
        Except.error (PyError.bleException ("Failed to find device " ++ selector)) := by
  constructor
  · rw [find_device, if_neg hsel, findNameLoop_ok_iff] at h
    obtain ⟨l₁, l₂, -, hd, -⟩ := h
    exact matchesName_requires_name selector d hd
  · intro a
    rw [find_device, if_neg hsel]
    simp [findNameLoop, matchesName]

theorem C7_witness :
    (∃ s, (BLEDevice.mk (some "D110_ABC123") "11:22:33:44:55:66").name = some s ∧
        s ≠ "") ∧
      ∀ a : String, find_device "D110" [BLEDevice.mk none a] =
        Except.error (PyError.bleException ("Failed to find device " ++ "D110")) :=
  C7_unnamed_never_selected "D110"
    [BLEDevice.mk (some "D110_ABC123") "11:22:33:44:55:66"]
    (BLEDevice.mk (some "D110_ABC123") "11:22:33:44:55:66") (by decide) (by rfl)

/-- C8: for every name-prefix selector (nonempty, and not the reserved
address selector `"p15"`), `find_device` returns `Except.ok d` exactly
when `d` is the first discovered record whose name, lower-cased, starts
with the lower-cased selector. -/
theorem C8_first_name_match (selector : String) (devices : List BLEDevice)
    (d : BLEDevice) (hsel : selector ≠ "p15") (hne : selector ≠ "") :
    find_device selector devices = Except.ok d ↔
      FirstSuch (specNameMatch selector) devices d := by
  rw [find_device, if_neg hsel, findNameLoop_ok_iff]
  constructor
  · rintro ⟨l₁, l₂, hsplit, hd, hfirst⟩
    exact ⟨l₁, l₂, hsplit, (matchesName_iff_spec selector d hne).mp hd,
      fun x hx hpx => hfirst x hx ((matchesName_iff_spec selector x hne).mpr hpx)⟩
  · rintro ⟨l₁, l₂, hsplit, hd, hfirst⟩
    exact ⟨l₁, l₂, hsplit, (matchesName_iff_spec selector d hne).mpr hd,
      fun x hx hpx => hfirst x hx ((matchesName_iff_spec selector x hne).mp hpx)⟩

/-- The spec's worked scenario for name-prefix resolution. -/
def scenarioDevices : List BLEDevice :=
  [BLEDevice.mk (some "D110_ABC123") "11:22:33:44:55:66",
   BLEDevice.mk (some "B21_XYZ") "77:88:99:AA:BB:CC"]

theorem C8_witness :
    find_device "D110" scenarioDevices =
      Except.ok (BLEDevice.mk (some "D110_ABC123") "11:22:33:44:55:66") :=
  (C8_first_name_match "D110" scenarioDevices
      (BLEDevice.mk (some "D110_ABC123") "11:22:33:44:55:66")
      (by decide) (by decide)).mpr
    ⟨[], [BLEDevice.mk (some "B21_XYZ") "77:88:99:AA:BB:CC"], rfl,
      ⟨"D110_ABC123", rfl, by decide⟩, by simp⟩

/-- C9: a discovery pass that observed no advertisement makes
`find_device` fail, for every selector, with exactly the
device-not-found `BLEException` naming the selector (or, on the
fixed-address branch, its hardcoded target); no other error kind can be
produced.  The embedding takes the single discovery pass as its input,
so no rescan or retry is possible by construction. -/
theorem C9_empty_discovery (selector : String) :
    find_device selector [] =
      Except.error (PyError.bleException
        (if selector = "p15" then "Failed to find P15 device at " ++ P15_MAC_ADDRESS
         else "Failed to find device " ++ selector)) := by
  by_cases h : selector = "p15"
  · simp only [find_device, if_pos h]
    rfl
  · simp only [find_device, if_neg h]
    rfl

/-- State of `BluepyBluetoothPrinter` (bluetooth.py lines 47-100): the
fields set in `__init__`.  The opaque `Peripheral` and characteristic
objects are modelled by `Nat` handles; `none` is Python `None`. -/
structure BluepyBluetoothPrinter where
  device_address : String
  peripheral : Option Nat
  characteristic : Option Nat
deriving Repr, DecidableEq

/-- What the radio does on one iteration of the retry loop of
`BluepyBluetoothPrinter.connect`.  `success` carries the handles of the
new peripheral and of its write characteristic; `periphFailTransient`
and `periphFailOther` are a `BTLEDisconnectError` respectively any other
exception raised by `Peripheral(...)` itself, before `self.peripheral`
is assigned; `laterFailTransient` and `laterFailOther` are the same two
kinds raised by `setMTU` or `getCharacteristics` after `self.peripheral`
was already assigned the new handle `p`. -/
inductive AttemptOutcome where
  | success (p c : Nat)
  | periphFailTransient (msg : String)
  | periphFailOther (msg : String)
  | laterFailTransient (p : Nat) (msg : String)
  | laterFailOther (p : Nat) (msg : String)
deriving Repr, DecidableEq

def AttemptOutcome.isTransientFail : AttemptOutcome → Bool
  | .periphFailTransient _ => true
  | .laterFailTransient _ _ => true
  | _ => false

def AttemptOutcome.isOtherFail : AttemptOutcome → Bool
  | .periphFailOther _ => true
  | .laterFailOther _ _ => true
  | _ => false

/-- Source constant `retries = 5` of `connect` (bluetooth.py line 57). -/
def bluepy_retries : Nat := 5

/-- Source constant `delay = 2` of `connect` (bluetooth.py line 58). -/
def bluepy_delay : Nat := 2

/-- What one call of `connect` produces: the state the transport is left
in, the call's result (`Except.error` models an exception escaping the
method), and how many connect attempts (`Peripheral(...)`
constructions) were performed. -/
structure ConnectResult where
  state : BluepyBluetoothPrinter
  result : Except PyError Unit
  attempts : Nat
deriving Repr

/-- The `for i in range(retries)` loop of
`BluepyBluetoothPrinter.connect` (bluetooth.py lines 59-78).  `fuel` is
the number of iterations left (`retries - i`), `i` the current attempt
index; `env i` is what the radio does on attempt `i`:

* `success`: assign `self.peripheral` and `self.characteristic`, return;
* `BTLEDisconnectError` (either transient outcome): when further
  iterations remain (`i < retries - 1`, that is `fuel ≠ 1`), sleep and
  continue; on the last iteration re-raise the error itself;
* any other exception (either other outcome): log, sleep and continue —
  also on the last iteration, after which the loop body is exhausted and
  the trailing `raise ConnectionError(...)` of line 78 runs (`fuel = 0`).

A failure inside an attempt never resets `self.peripheral` or
`self.characteristic`: the `laterFail` outcomes leave the freshly
assigned `peripheral` handle in place. -/
def BluepyBluetoothPrinter.connectLoop (env : Nat → AttemptOutcome) :
    Nat → BluepyBluetoothPrinter → Nat → ConnectResult
  | 0, st, i =>
    ⟨st, Except.error
      (PyError.connectionError "Failed to connect to printer using bluepy."), i⟩
  | fuel + 1, st, i =>
    match env i with
    | .success p c =>
      ⟨{ st with peripheral := some p, characteristic := some c },
        Except.ok (), i + 1⟩
    | .periphFailTransient msg =>
      if fuel = 0 then
        ⟨st, Except.error (PyError.btleDisconnectError msg), i + 1⟩
      else
        BluepyBluetoothPrinter.connectLoop env fuel st (i + 1)
    | .periphFailOther _ =>
      BluepyBluetoothPrinter.connectLoop env fuel st (i + 1)
    | .laterFailTransient p msg =>
      if fuel = 0 then
        ⟨{ st with peripheral := some p },
          Except.error (PyError.btleDisconnectError msg), i + 1⟩
      else
        BluepyBluetoothPrinter.connectLoop env fuel
          ({ st with peripheral := some p }) (i + 1)
    | .laterFailOther p _ =>
      BluepyBluetoothPrinter.connectLoop env fuel
        ({ st with peripheral := some p }) (i + 1)

/-- `BluepyBluetoothPrinter.connect` (bluetooth.py lines 55-78). -/
def BluepyBluetoothPrinter.connect (st : BluepyBluetoothPrinter)
    (env : Nat → AttemptOutcome) : ConnectResult :=
  BluepyBluetoothPrinter.connectLoop env bluepy_retries st 0

/-- `BluepyBluetoothPrinter.disconnect` (bluetooth.py lines 80-90):
if `self.peripheral` is set, call the platform disconnect (one platform
call; `platformErr` says whether that call raises, and with what
message), swallow any error it raises, and in the `finally` block reset
both `self.peripheral` and `self.characteristic` to `None`.  The method
itself never raises, so its result type records only the new state and
the platform call count. -/
def BluepyBluetoothPrinter.disconnect (st : BluepyBluetoothPrinter)
    (_platformErr : Option String) : BluepyBluetoothPrinter × Nat :=
  match st.peripheral with
  | none => (st, 0)
  | some _ => ({ st with peripheral := none, characteristic := none }, 1)

/-- `BluepyBluetoothPrinter.write` (bluetooth.py lines 92-100): raise
`ConnectionError` without any platform call when `self.characteristic`
is falsy; otherwise perform the one platform write, re-raising
(`wErr`) any exception it produces.  Returns the call's result and the
number of platform write calls performed. -/
def BluepyBluetoothPrinter.write (st : BluepyBluetoothPrinter)
    (wErr : Option String) (_data : List Nat) : Except PyError Unit × Nat :=
  match st.characteristic with
  | none => (Except.error (PyError.connectionError "Not connected to printer."), 0)
  | some _ =>
    match wErr with
    | none => (Except.ok (), 1)
    | some msg => (Except.error (PyError.otherError msg), 1)

/-- The spec's `Connected` state mapped onto the bluepy transport: the
writable characteristic handle is resolved. -/
def BluepyBluetoothPrinter.isConnected (st : BluepyBluetoothPrinter) : Bool :=
  st.characteristic.isSome

/-- The slice of bleak's `BleakClient` this code observes. -/
structure BleakClient where
  is_connected : Bool
deriving Repr, DecidableEq

/-- State of `BLETransport` (bluetooth.py lines 130-133). -/
structure BLETransport where
  address : Option String
  client : Option BleakClient
deriving Repr, DecidableEq

/-- The spec's `Connected` state mapped onto the GATT-client transport:
a client object exists and reports itself connected. -/
def BLETransport.isConnected (st : BLETransport) : Bool :=
  match st.client with
  | some c => c.is_connected
  | none => false

/-- `BLETransport.write` (bluetooth.py lines 162-166): when
`self.client` is set and connected, perform the one platform
`write_gatt_char` call, whose exception (`wErr`) propagates; otherwise
raise `BLEException` with no platform call. -/
def BLETransport.write (st : BLETransport) (wErr : Option String)
    (_data : List Nat) : Except PyError Unit × Nat :=
  match st.client with
  | some c =>
    if c.is_connected then
      match wErr with
      | none => (Except.ok (), 1)
      | some msg => (Except.error (PyError.otherError msg), 1)
    else (Except.error (PyError.bleException "BLE client is not connected."), 0)
  | none => (Except.error (PyError.bleException "BLE client is not connected."), 0)

/-- `BLETransport.disconnect` (bluetooth.py lines 158-160): when
`self.client` is set and connected, call the platform disconnect — with
no try/except around it, so an exception it raises (`platformErr`)
propagates to the caller; a successful platform disconnect leaves the
client reporting not-connected.  Otherwise do nothing.  Returns the new
state, the call's result and the platform call count. -/
def BLETransport.disconnect (st : BLETransport) (platformErr : Option String) :
    BLETransport × Except PyError Unit × Nat :=
  match st.client with
  | some c =>
    if c.is_connected then
      match platformErr with
      | none => ({ st with client := some ⟨false⟩ }, Except.ok (), 1)
      | some msg => (st, Except.error (PyError.otherError msg), 1)
    else (st, Except.ok (), 0)
  | none => (st, Except.ok (), 0)

theorem isTransientFail_cases (o : AttemptOutcome) (h : o.isTransientFail = true) :
    (∃ msg, o = AttemptOutcome.periphFailTransient msg) ∨
      ∃ p msg, o = AttemptOutcome.laterFailTransient p msg := by
  cases o with
  | periphFailTransient msg => exact Or.inl ⟨msg, rfl⟩
  | laterFailTransient p msg => exact Or.inr ⟨p, msg, rfl⟩
  | success p c => simp [AttemptOutcome.isTransientFail] at h
  | periphFailOther msg => simp [AttemptOutcome.isTransientFail] at h
  | laterFailOther p msg => simp [AttemptOutcome.isTransientFail] at h

theorem isOtherFail_cases (o : AttemptOutcome) (h : o.isOtherFail = true) :
    (∃ msg, o = AttemptOutcome.periphFailOther msg) ∨
      ∃ p msg, o = AttemptOutcome.laterFailOther p msg := by
  cases o with
  | periphFailOther msg => exact Or.inl ⟨msg, rfl⟩
  | laterFailOther p msg => exact Or.inr ⟨p, msg, rfl⟩
  | success p c => simp [AttemptOutcome.isOtherFail] at h
  | periphFailTransient msg => simp [AttemptOutcome.isOtherFail] at h
  | laterFailTransient p msg => simp [AttemptOutcome.isOtherFail] at h

/-- When every attempt fails with the transient `BTLEDisconnectError`,
the loop runs all its iterations and re-raises the last attempt's own
error unchanged. -/
theorem connectLoop_all_transient (env : Nat → AttemptOutcome)
    (h : ∀ i, (env i).isTransientFail = true) :
    ∀ (fuel : Nat) (st : BluepyBluetoothPrinter) (i : Nat),
      (BluepyBluetoothPrinter.connectLoop env (fuel + 1) st i).attempts = i + fuel + 1 ∧
        ∃ msg, (BluepyBluetoothPrinter.connectLoop env (fuel + 1) st i).result =
          Except.error (PyError.btleDisconnectError msg) := by
  intro fuel
  induction fuel with
  | zero =>
    intro st i
    rcases isTransientFail_cases (env i) (h i) with ⟨msg, he⟩ | ⟨p, msg, he⟩
    · exact ⟨by simp [BluepyBluetoothPrinter.connectLoop, he],
        ⟨msg, by simp [BluepyBluetoothPrinter.connectLoop, he]⟩⟩
    · exact ⟨by simp [BluepyBluetoothPrinter.connectLoop, he],
        ⟨msg, by simp [BluepyBluetoothPrinter.connectLoop, he]⟩⟩
  | succ f ih =>
    intro st i
    rcases isTransientFail_cases (env i) (h i) with ⟨msg, he⟩ | ⟨p, msg, he⟩
    · have hu : BluepyBluetoothPrinter.connectLoop env (f + 1 + 1) st i =
          BluepyBluetoothPrinter.connectLoop env (f + 1) st (i + 1) := by
        simp [BluepyBluetoothPrinter.connectLoop, he]
      rw [hu]
      obtain ⟨h1, h2⟩ := ih st (i + 1)
      exact ⟨by rw [h1]; omega, h2⟩
    · have hu : BluepyBluetoothPrinter.connectLoop env (f + 1 + 1) st i =
          BluepyBluetoothPrinter.connectLoop env (f + 1)
            ({ st with peripheral := some p }) (i + 1) := by
        simp [BluepyBluetoothPrinter.connectLoop, he]
      rw [hu]
      obtain ⟨h1, h2⟩ := ih ({ st with peripheral := some p }) (i + 1)
      exact ⟨by rw [h1]; omega, h2⟩

/-- When every attempt fails with a non-transient error, the loop
swallows each of them, consumes every iteration and ends by raising the
generic `ConnectionError` of line 78. -/
theorem connectLoop_all_other (env : Nat → AttemptOutcome)
    (h : ∀ i, (env i).isOtherFail = true) :
    ∀ (fuel : Nat) (st : BluepyBluetoothPrinter) (i : Nat),
      (BluepyBluetoothPrinter.connectLoop env fuel st i).result =
          Except.error (PyError.connectionError
            "Failed to connect to printer using bluepy.") ∧
        (BluepyBluetoothPrinter.connectLoop env fuel st i).attempts = i + fuel := by
  intro fuel
  induction fuel with
  | zero => intro st i; exact ⟨rfl, rfl⟩
  | succ f ih =>
    intro st i
    rcases isOtherFail_cases (env i) (h i) with ⟨msg, he⟩ | ⟨p, msg, he⟩
    · have hu : BluepyBluetoothPrinter.connectLoop env (f + 1) st i =
          BluepyBluetoothPrinter.connectLoop env f st (i + 1) := by
        simp [BluepyBluetoothPrinter.connectLoop, he]
      rw [hu]
      obtain ⟨h1, h2⟩ := ih st (i + 1)
      exact ⟨h1, by rw [h2]; omega⟩
    · have hu : BluepyBluetoothPrinter.connectLoop env (f + 1) st i =
          BluepyBluetoothPrinter.connectLoop env f
            ({ st with peripheral := some p }) (i + 1) := by
        simp [BluepyBluetoothPrinter.connectLoop, he]
      rw [hu]
      obtain ⟨h1, h2⟩ := ih ({ st with peripheral := some p }) (i + 1)
      exact ⟨h1, by rw [h2]; omega⟩

/-- A connect environment whose first attempt raises a non-transient
error (the adapter is missing) and whose second attempt succeeds. -/
def envOtherThenSuccess : Nat → AttemptOutcome :=
  fun i =>
    if i = 0 then AttemptOutcome.periphFailOther "No Bluetooth adapter"
    else AttemptOutcome.success 1 2

/-- C2 counterexample: a non-transient error on the first attempt does
not abort the loop and is not surfaced — the loop retries, and with a
successful second attempt `connect` returns ok after two attempts. -/
theorem C2_counterexample :
    ((BluepyBluetoothPrinter.mk "11:22:33:44:55:66" none none).connect
        envOtherThenSuccess).result = Except.ok () ∧
      ((BluepyBluetoothPrinter.mk "11:22:33:44:55:66" none none).connect
        envOtherThenSuccess).attempts = 2 :=
  ⟨rfl, rfl⟩

/-- C2 (amended): a non-transient connect error never aborts the retry
loop and is never surfaced itself: the loop logs it, sleeps and retries.
When every attempt fails non-transiently, all `bluepy_retries` attempts
are consumed and the loop ends with the generic `ConnectionError`, not
the underlying error. -/
theorem C2_nontransient_swallowed (env : Nat → AttemptOutcome)
    (st : BluepyBluetoothPrinter) (h : ∀ i, (env i).isOtherFail = true) :
    (st.connect env).result =
        Except.error (PyError.connectionError
          "Failed to connect to printer using bluepy.") ∧
      (st.connect env).attempts = bluepy_retries := by
  obtain ⟨h1, h2⟩ := connectLoop_all_other env h bluepy_retries st 0
  exact ⟨h1, h2.trans rfl⟩

theorem C2_witness :
    ((BluepyBluetoothPrinter.mk "11:22:33:44:55:66" none none).connect
        (fun _ => AttemptOutcome.periphFailOther "No Bluetooth adapter")).result =
        Except.error (PyError.connectionError
          "Failed to connect to printer using bluepy.") ∧
      ((BluepyBluetoothPrinter.mk "11:22:33:44:55:66" none none).connect
        (fun _ => AttemptOutcome.periphFailOther "No Bluetooth adapter")).attempts =
        bluepy_retries :=
  C2_nontransient_swallowed _ _ (fun _ => rfl)

/-- A connect environment where every attempt opens the peripheral and
then drops the link during characteristic lookup. -/
def envLateDrop : Nat → AttemptOutcome :=
  fun i => AttemptOutcome.laterFailTransient (i + 7) "link drop"

/-- C3 counterexample: every attempt fails after the peripheral was
opened; `connect` fails, yet the transport still holds the last
attempt's peripheral handle (attempt index 4, handle `4 + 7 = 11`) —
nothing is released on the error path. -/
theorem C3_counterexample :
    ((BluepyBluetoothPrinter.mk "77:88:99:AA:BB:CC" none none).connect
        envLateDrop).result = Except.error (PyError.btleDisconnectError "link drop") ∧
      ((BluepyBluetoothPrinter.mk "77:88:99:AA:BB:CC" none none).connect
        envLateDrop).state.peripheral = some 11 ∧
      ((BluepyBluetoothPrinter.mk "77:88:99:AA:BB:CC" none none).connect
        envLateDrop).state.peripheral ≠ none :=
  ⟨rfl, rfl, by decide⟩

/-- C3 (amended): when a connect attempt fails after `self.peripheral`
was assigned, the handle is not released: after the retry loop fails,
the transport still holds the peripheral handle of the last failed
attempt.  The code has no `Failed` state and no cleanup on the connect
error path; only `disconnect` releases the handle. -/
theorem C3_failed_connect_keeps_handle (st : BluepyBluetoothPrinter) (p : Nat)
    (msg : String) :
    ((st.connect (fun _ => AttemptOutcome.laterFailTransient p msg)).result =
        Except.error (PyError.btleDisconnectError msg)) ∧
      (st.connect (fun _ => AttemptOutcome.laterFailTransient p msg)).state.peripheral =
        some p := by
  constructor <;> rfl

/-- An all-transient connect environment: the link drops on every attempt. -/
def envAllTransient : Nat → AttemptOutcome :=
  fun _ => AttemptOutcome.periphFailTransient "link drop"

/-- C4 counterexample: with every attempt failing transiently, `connect`
performs 5 attempts (`retries` is hardcoded, there is no `max_attempts`
parameter, so a 3-attempt run cannot be requested) and re-raises the
last raw `BTLEDisconnectError` — no wrapper error carrying an attempt
count is produced. -/
theorem C4_counterexample :
    ((BluepyBluetoothPrinter.mk "03:0D:7A:D6:5E:B1" none none).connect
        envAllTransient).attempts = 5 ∧
      ((BluepyBluetoothPrinter.mk "03:0D:7A:D6:5E:B1" none none).connect
        envAllTransient).result =
        Except.error (PyError.btleDisconnectError "link drop") ∧
      ∀ m, ((BluepyBluetoothPrinter.mk "03:0D:7A:D6:5E:B1" none none).connect
        envAllTransient).result ≠ Except.error (PyError.connectionError m) := by
  refine ⟨rfl, rfl, ?_⟩
  intro m hm
  rw [show ((BluepyBluetoothPrinter.mk "03:0D:7A:D6:5E:B1" none none).connect
      envAllTransient).result =
      Except.error (PyError.btleDisconnectError "link drop") from rfl] at hm
  exact absurd hm (by simp)

/-- C4 (amended): when every attempt fails transiently, `connect`
performs exactly `bluepy_retries = 5` connect attempts — no more, no
fewer — and then fails by re-raising the underlying
`BTLEDisconnectError` itself, unwrapped and carrying no attempt
count. -/
theorem C4_transient_exhausts_attempts (env : Nat → AttemptOutcome)
    (st : BluepyBluetoothPrinter) (h : ∀ i, (env i).isTransientFail = true) :
    (st.connect env).attempts = bluepy_retries ∧
      ∃ msg, (st.connect env).result =
        Except.error (PyError.btleDisconnectError msg) := by
  obtain ⟨h1, h2⟩ := connectLoop_all_transient env h 4 st 0
  exact ⟨h1.trans rfl, h2⟩

theorem C4_witness :
    ((BluepyBluetoothPrinter.mk "03:0D:7A:D6:5E:B1" none none).connect
        envAllTransient).attempts = bluepy_retries ∧
      ∃ msg, ((BluepyBluetoothPrinter.mk "03:0D:7A:D6:5E:B1" none none).connect
        envAllTransient).result = Except.error (PyError.btleDisconnectError msg) :=
  C4_transient_exhausts_attempts envAllTransient _ (fun _ => rfl)

/-- C5: on both transport variants, a `write` issued while the
transport is not in the `Connected` state fails with the variant's
not-connected error (`ConnectionError` for bluepy, `BLEException` for
the GATT client) and performs zero platform calls, for every payload and
whatever the platform write would have done. -/
theorem C5_write_fails_fast_when_not_connected :
    (∀ (st : BluepyBluetoothPrinter) (e : Option String) (data : List Nat),
        st.isConnected = false →
          st.write e data =
            (Except.error (PyError.connectionError "Not connected to printer."), 0)) ∧
      ∀ (st : BLETransport) (e : Option String) (data : List Nat),
        st.isConnected = false →
          st.write e data =
            (Except.error (PyError.bleException "BLE client is not connected."), 0) := by
  constructor
  · intro st e data h
    obtain ⟨a, p, c⟩ := st
    cases c with
    | none => rfl
    | some k => simp [BluepyBluetoothPrinter.isConnected] at h
  · intro st e data h
    obtain ⟨a, cl⟩ := st
    cases cl with
    | none => rfl
    | some c =>
      simp only [BLETransport.isConnected] at h
      simp [BLETransport.write, h]

theorem C5_witness :
    (BluepyBluetoothPrinter.mk "03:0D:7A:D6:5E:B1" none none).write none [2, 85] =
        (Except.error (PyError.connectionError "Not connected to printer."), 0) ∧
      (BLETransport.mk (some "11:22:33:44:55:66") none).write none [2, 85] =
        (Except.error (PyError.bleException "BLE client is not connected."), 0) :=
  ⟨C5_write_fails_fast_when_not_connected.1
      (BluepyBluetoothPrinter.mk "03:0D:7A:D6:5E:B1" none none) none [2, 85] rfl,
    C5_write_fails_fast_when_not_connected.2
      (BLETransport.mk (some "11:22:33:44:55:66") none) none [2, 85] rfl⟩

/-- C6 counterexample: `BLETransport.disconnect` wraps the platform call
in no try/except, so when the platform disconnect raises while a client
is connected, the error propagates to the caller — `disconnect` is not
"never raises" on this variant. -/
theorem C6_counterexample :
    (BLETransport.disconnect
        (BLETransport.mk (some "77:88:99:AA:BB:CC") (some ⟨true⟩))
        (some "platform disconnect failed")).2.1 =
      Except.error (PyError.otherError "platform disconnect failed") :=
  rfl

/-- C6 (amended): on the bluepy transport, `disconnect` is idempotent
and never raises — its result does not depend on whether the platform
disconnect raised (the error is swallowed), and a second successive call
is a no-op performing zero platform calls.  On the GATT-client
transport, `disconnect` with no client, or with a client that is not
connected, is a no-op that never raises; but when a connected client's
platform disconnect raises, the error propagates to the caller. -/
theorem C6_disconnect_idempotent_split :
    (∀ (st : BluepyBluetoothPrinter) (e₁ e₂ : Option String),
        st.disconnect e₁ = st.disconnect e₂) ∧
      (∀ (st : BluepyBluetoothPrinter) (e₁ e₂ : Option String),
        (st.disconnect e₁).1.disconnect e₂ = ((st.disconnect e₁).1, 0)) ∧
      (∀ (a : Option String) (e : Option String),
        BLETransport.disconnect (BLETransport.mk a none) e =
          (BLETransport.mk a none, Except.ok (), 0)) ∧
      (∀ (a : Option String) (e : Option String),
        BLETransport.disconnect (BLETransport.mk a (some ⟨false⟩)) e =
          (BLETransport.mk a (some ⟨false⟩), Except.ok (), 0)) ∧
      ∀ (a : Option String) (msg : String),
        (BLETransport.disconnect (BLETransport.mk a (some ⟨true⟩)) (some msg)).2.1 =
          Except.error (PyError.otherError msg) := by
  refine ⟨?_, ?_, fun a e => rfl, fun a e => rfl, fun a msg => rfl⟩
  · intro st e₁ e₂
    obtain ⟨a, p, c⟩ := st
    cases p with
    | none => rfl
    | some k => rfl
  · intro st e₁ e₂
    obtain ⟨a, p, c⟩ := st
    cases p with
    | none => rfl
    | some k => rfl

/-- The bluepy transport states reachable through its methods, from a
freshly constructed instance: `connect` (under any radio behaviour) and
`disconnect` are the only state-changing operations (`write` does not
touch the three fields). -/
inductive Reachable : BluepyBluetoothPrinter → Prop
  | init (addr : String) : Reachable (BluepyBluetoothPrinter.mk addr none none)
  | connectStep (env : Nat → AttemptOutcome) (st : BluepyBluetoothPrinter) :
      Reachable st → Reachable (st.connect env).state
  | disconnectStep (e : Option String) (st : BluepyBluetoothPrinter) :
      Reachable st → Reachable (st.disconnect e).1

/-- If the retry loop ends with no peripheral handle held, it never
assigned one, and the whole state is unchanged. -/
theorem connectLoop_peripheral_none_state (env : Nat → AttemptOutcome) :
    ∀ (fuel : Nat) (st : BluepyBluetoothPrinter) (i : Nat),
      (BluepyBluetoothPrinter.connectLoop env fuel st i).state.peripheral = none →
        (BluepyBluetoothPrinter.connectLoop env fuel st i).state = st := by
  intro fuel
  induction fuel with
  | zero => intro st i h; rfl
  | succ f ih =>
    intro st i h
    cases he : env i with
    | success p c =>
      have hu : BluepyBluetoothPrinter.connectLoop env (f + 1) st i =
          ⟨{ st with peripheral := some p, characteristic := some c },
            Except.ok (), i + 1⟩ := by
        simp [BluepyBluetoothPrinter.connectLoop, he]
      rw [hu] at h
      simp at h
    | periphFailTransient msg =>
      by_cases hf : f = 0
      · subst hf
        have hu : BluepyBluetoothPrinter.connectLoop env (0 + 1) st i =
            ⟨st, Except.error (PyError.btleDisconnectError msg), i + 1⟩ := by
          simp [BluepyBluetoothPrinter.connectLoop, he]
        rw [hu]
      · have hu : BluepyBluetoothPrinter.connectLoop env (f + 1) st i =
            BluepyBluetoothPrinter.connectLoop env f st (i + 1) := by
          simp [BluepyBluetoothPrinter.connectLoop, he, hf]
        rw [hu] at h ⊢
        exact ih st (i + 1) h
    | periphFailOther msg =>
      have hu : BluepyBluetoothPrinter.connectLoop env (f + 1) st i =
          BluepyBluetoothPrinter.connectLoop env f st (i + 1) := by
        simp [BluepyBluetoothPrinter.connectLoop, he]
      rw [hu] at h ⊢
      exact ih st (i + 1) h
    | laterFailTransient p msg =>
      by_cases hf : f = 0
      · subst hf
        have hu : BluepyBluetoothPrinter.connectLoop env (0 + 1) st i =
            ⟨{ st with peripheral := some p },
              Except.error (PyError.btleDisconnectError msg), i + 1⟩ := by
          simp [BluepyBluetoothPrinter.connectLoop, he]
        rw [hu] at h
        simp at h
      · have hu : BluepyBluetoothPrinter.connectLoop env (f + 1) st i =
            BluepyBluetoothPrinter.connectLoop env f
              ({ st with peripheral := some p }) (i + 1) := by
          simp [BluepyBluetoothPrinter.connectLoop, he, hf]
        rw [hu] at h
        have hs := ih ({ st with peripheral := some p }) (i + 1) h
        rw [hs] at h
        simp at h
    | laterFailOther p msg =>
      have hu : BluepyBluetoothPrinter.connectLoop env (f + 1) st i =
          BluepyBluetoothPrinter.connectLoop env f
            ({ st with peripheral := some p }) (i + 1) := by
        simp [BluepyBluetoothPrinter.connectLoop, he]
      rw [hu] at h
      have hs := ih ({ st with peripheral := some p }) (i + 1) h
      rw [hs] at h
      simp at h

/-- On every reachable bluepy transport state, a characteristic handle
is only held while a peripheral handle is held. -/
theorem reachable_no_orphan_characteristic (st : BluepyBluetoothPrinter)
    (h : Reachable st) : st.peripheral = none → st.characteristic = none := by
  induction h with
  | init addr => intro hp; rfl
  | connectStep env st hr ih =>
    intro hp
    have hs : (st.connect env).state = st :=
      connectLoop_peripheral_none_state env bluepy_retries st 0 hp
    rw [hs] at hp ⊢
    exact ih hp
  | disconnectStep e st hr ih =>
    obtain ⟨a, p, c⟩ := st
    cases p with
    | none => intro hp; exact ih hp
    | some k => intro hp; rfl

/-- C10: after any `disconnect` call on a reachable bluepy transport
state, both the peripheral handle and the characteristic are `None` —
whatever the platform-level disconnect did — so the transport is left in
the `Disconnected` state and every subsequent `write` fails with the
not-connected `ConnectionError`, performing no platform call, until a
new successful `connect`. -/
theorem C10_disconnect_leaves_disconnected (st : BluepyBluetoothPrinter)
    (e : Option String) (h : Reachable st) :
    (st.disconnect e).1.peripheral = none ∧
      (st.disconnect e).1.characteristic = none ∧
      (st.disconnect e).1.isConnected = false ∧
      ∀ (w : Option String) (data : List Nat),
        (st.disconnect e).1.write w data =
          (Except.error (PyError.connectionError "Not connected to printer."), 0) := by
  have hchar : (st.disconnect e).1.characteristic = none := by
    obtain ⟨a, p, c⟩ := st
    cases p with
    | none => exact reachable_no_orphan_characteristic _ h rfl
    | some k => rfl
  have hper : (st.disconnect e).1.peripheral = none := by
    obtain ⟨a, p, c⟩ := st
    cases p with
    | none => rfl
    | some k => rfl
  refine ⟨hper, hchar, ?_, ?_⟩
  · simp [BluepyBluetoothPrinter.isConnected, hchar]
  · intro w data
    simp [BluepyBluetoothPrinter.write, hchar]

theorem C10_witness :
    ((BluepyBluetoothPrinter.mk "03:0D:7A:D6:5E:B1" none none).disconnect
        (some "platform disconnect failed")).1.peripheral = none ∧
      ((BluepyBluetoothPrinter.mk "03:0D:7A:D6:5E:B1" none none).disconnect
        (some "platform disconnect failed")).1.characteristic = none ∧
      ((BluepyBluetoothPrinter.mk "03:0D:7A:D6:5E:B1" none none).disconnect
        (some "platform disconnect failed")).1.isConnected = false ∧
      ∀ (w : Option String) (data : List Nat),
        ((BluepyBluetoothPrinter.mk "03:0D:7A:D6:5E:B1" none none).disconnect
            (some "platform disconnect failed")).1.write w data =
          (Except.error (PyError.connectionError "Not connected to printer."), 0) :=
  C10_disconnect_leaves_disconnected
    (BluepyBluetoothPrinter.mk "03:0D:7A:D6:5E:B1" none none)
    (some "platform disconnect failed") (Reachable.init "03:0D:7A:D6:5E:B1")
